import Mathlib

/-!
Verification development for the wiki-movies frontend.

The definitions below are a shallow embedding of the TypeScript source:

* src/lib/enrich-tmdb.ts        (enrichSearchHitWithTMDB, enrichSearchResultsWithTMDB)
* src/lib/db/queries.ts         (normalizeQuery, isCacheValid, getCachedTMDBResult,
                                 cacheTMDBResult; the file appears as unnamed part_019)
* src/app/api/tmdb/poster/route.ts and its refactored variant (unnamed part_010)
                                (fetchFromTMDB retry logic)
* src/components/chat-interface.tsx (unnamed part_001: handleSearch, infinite scroll)
* src/components/movie-search.tsx   (performSearch, infinite scroll)

JavaScript conventions carried over into the model:

* A value of type "T | undefined" or "T | null" becomes "Option T"; where the
  source distinguishes null from undefined (the tmdb_id field) a dedicated
  three-valued type is used.
* JS truthiness on strings ("" is falsy) and numbers (0 is falsy) is modelled
  explicitly at every spot the source relies on it.
* Asynchronous external calls (searchTMDB, axios.get, fetch) are modelled by
  oracle functions passed as parameters; functions that issue calls also
  return a count of the calls they issued.
-/

namespace WikiMovies

/-- The backend field tmdb_id has type number | null | undefined; the three
cases drive the enrichment decision, so they are kept apart. -/
inductive TmdbIdVal where
  | undef
  | nullv
  | num (n : Int)
deriving DecidableEq, Repr

/-- The slice of SearchHitFields (src/lib/types/api.ts) that the enrichment
pipeline reads. All members are optional in the source type. -/
structure SearchHitFields where
  tmdb_id : TmdbIdVal := .undef
  title : Option String := none
  title_raw : Option String := none
  released_year : Option Int := none
  media_type : Option String := none
deriving DecidableEq, Repr

/-- SearchHit from src/lib/types/api.ts: id and title are required, fields is
optional. relevance is a float payload never computed with; an Int stands in
for it. -/
structure SearchHit where
  id : Int
  title : String
  relevance : Int := 0
  fields : Option SearchHitFields := none
deriving DecidableEq, Repr

/-- TMDBSearchResult from src/lib/tmdb.ts. vote_average and popularity are
float payloads never computed with; Int stands in for them. -/
structure TMDBSearchResult where
  id : Int
  title : Option String := none
  name : Option String := none
  poster_path : Option String := none
  backdrop_path : Option String := none
  media_type : Option String := none
  release_date : Option String := none
  first_air_date : Option String := none
  vote_average : Option Int := none
  vote_count : Option Int := none
  popularity : Option Int := none
  overview : Option String := none
  original_language : Option String := none
  adult : Option Bool := none
deriving DecidableEq, Repr

/-- String.prototype.trim, modelled structurally over the character list
(the library String.trim does not reduce in the kernel): drop whitespace
from both ends. -/
def jsTrim (s : String) : String :=
  ⟨((s.data.dropWhile Char.isWhitespace).reverse.dropWhile
      Char.isWhitespace).reverse⟩

/-- String.prototype.toLowerCase, modelled structurally over the character
list. -/
def jsToLower (s : String) : String :=
  ⟨s.data.map Char.toLower⟩

/-- JS truthiness of an optional string: undefined and the empty string are
falsy. Returns the value when truthy, none otherwise, so that chains of
a or b or c translate directly. -/
def strTruthy : Option String → Option String
  | none => none
  | some s => if s = "" then none else some s

/-- hit.fields?.tmdb_id : undefined when fields itself is absent. -/
def tmdbIdOf (hit : SearchHit) : TmdbIdVal :=
  match hit.fields with
  | none => .undef
  | some f => f.tmdb_id

/-- const title = fields?.title or fields?.title_raw or hit.title
(JS "or" skips falsy values, so empty strings fall through). -/
def effTitle (hit : SearchHit) : Option String :=
  match strTruthy (hit.fields.bind (·.title)) with
  | some t => some t
  | none =>
    match strTruthy (hit.fields.bind (·.title_raw)) with
    | some t => some t
    | none => strTruthy (some hit.title)

/-- const year = fields?.released_year -/
def yearOf (hit : SearchHit) : Option Int :=
  hit.fields.bind (·.released_year)

/-- const mediaType = fields?.media_type === television ? tv : movie -/
def mediaTypeOf (hit : SearchHit) : String :=
  if hit.fields.bind (·.media_type) = some "television" then "tv" else "movie"

/-- Outcome of one call to searchTMDB(title, year, mediaType): a resolved
value (possibly null) or a thrown exception. -/
inductive LookupOutcome where
  | ok (r : Option TMDBSearchResult)
  | thrown
deriving DecidableEq, Repr

/-- Oracle standing in for the asynchronous searchTMDB call, keyed on the
arguments the source passes: title, year, mediaType. -/
def Lookup := String → Option Int → String → LookupOutcome

/-- Return type of enrichment: the hit spread together with an optional
tmdbData attachment (tmdbData or undefined in the source). -/
structure EnrichedHit where
  hit : SearchHit
  tmdbData : Option TMDBSearchResult := none
deriving DecidableEq, Repr

/-- enrichSearchHitWithTMDB (src/lib/enrich-tmdb.ts, lines 22-52).
The second component counts the searchTMDB calls the run performed.
Source logic: if fields?.tmdb_id !== undefined return hit; compute title,
year, mediaType; if !title return hit; call searchTMDB, on success attach
tmdbData (null coerced to undefined), on a thrown error return hit. -/
def enrichSearchHitWithTMDB (lookup : Lookup) (hit : SearchHit) :
    EnrichedHit × Nat :=
  if tmdbIdOf hit ≠ .undef then (⟨hit, none⟩, 0)
  else
    match effTitle hit with
    | none => (⟨hit, none⟩, 0)
    | some title =>
      match lookup title (yearOf hit) (mediaTypeOf hit) with
      | .ok r => (⟨hit, r⟩, 1)
      | .thrown => (⟨hit, none⟩, 1)

/-- enrichSearchResultsWithTMDB (src/lib/enrich-tmdb.ts, lines 60-85).
Filter the hits whose tmdb_id is undefined, enrich those via Promise.all
(which preserves the order of the mapped list regardless of completion
order), then rebuild the output in the original order: a hit with a present
tmdb_id passes through, otherwise the first enriched hit with the same id is
taken, falling back to the hit itself. The second component totals the
searchTMDB calls. -/
def enrichSearchResultsWithTMDB (lookup : Lookup) (hits : List SearchHit) :
    List EnrichedHit × Nat :=
  let hitsNeedingLookup := hits.filter (fun h => tmdbIdOf h = .undef)
  let enrichedHitsNeedingLookup :=
    hitsNeedingLookup.map (fun h => (enrichSearchHitWithTMDB lookup h).1)
  let calls :=
    (hitsNeedingLookup.map (fun h => (enrichSearchHitWithTMDB lookup h).2)).sum
  let enrichedResults := hits.map (fun hit =>
    if tmdbIdOf hit ≠ .undef then (⟨hit, none⟩ : EnrichedHit)
    else (enrichedHitsNeedingLookup.find? (fun e => e.hit.id == hit.id)).getD
      ⟨hit, none⟩)
  (enrichedResults, calls)

/-- Whatever branch runs, single-hit enrichment keeps the hit itself. -/
theorem enrichHit_fst_hit (lookup : Lookup) (hit : SearchHit) :
    (enrichSearchHitWithTMDB lookup hit).1.hit = hit := by
  unfold enrichSearchHitWithTMDB
  by_cases h : tmdbIdOf hit ≠ .undef
  · simp [h]
  · simp [h]
    cases effTitle hit with
    | none => simp
    | some t =>
      simp
      cases lookup t (yearOf hit) (mediaTypeOf hit) with
      | ok r => simp
      | thrown => simp

/-- The merge step used by the batch: looking up any list by id and falling
back to the hit itself always yields an element carrying the same id. -/
theorem combine_preserves_id (l : List EnrichedHit) (hit : SearchHit) :
    ((l.find? (fun e => e.hit.id == hit.id)).getD ⟨hit, none⟩).hit.id
      = hit.id := by
  cases hfind : l.find? (fun e => e.hit.id == hit.id) with
  | none => simp
  | some e =>
    have := List.find?_some hfind
    simp at this
    simp [this]

/-- Unfolding equation for the output list of the batch enrichment. -/
theorem enrichResults_fst (lookup : Lookup) (hits : List SearchHit) :
    (enrichSearchResultsWithTMDB lookup hits).1 = hits.map (fun hit =>
      if tmdbIdOf hit ≠ .undef then (⟨hit, none⟩ : EnrichedHit)
      else (((hits.filter (fun h => tmdbIdOf h = .undef)).map
              (fun h => (enrichSearchHitWithTMDB lookup h).1)).find?
              (fun e => e.hit.id == hit.id)).getD ⟨hit, none⟩) := rfl

/-- Unfolding equation for the call count of the batch enrichment. -/
theorem enrichResults_snd (lookup : Lookup) (hits : List SearchHit) :
    (enrichSearchResultsWithTMDB lookup hits).2 =
      ((hits.filter (fun h => tmdbIdOf h = .undef)).map
        (fun h => (enrichSearchHitWithTMDB lookup h).2)).sum := rfl

/-- The batch output always has the length of its input. -/
theorem enrich_length_eq (lookup : Lookup) (hits : List SearchHit) :
    (enrichSearchResultsWithTMDB lookup hits).1.length = hits.length := by
  rw [enrichResults_fst]
  simp

/-- The batch output always carries the input id sequence, in order. -/
theorem enrich_ids_eq (lookup : Lookup) (hits : List SearchHit) :
    (enrichSearchResultsWithTMDB lookup hits).1.map (fun e => e.hit.id)
      = hits.map (fun h => h.id) := by
  rw [enrichResults_fst]
  set l := (hits.filter (fun h => tmdbIdOf h = .undef)).map
      (fun h => (enrichSearchHitWithTMDB lookup h).1) with hl
  rw [List.map_map]
  have hfun : ((fun e : EnrichedHit => e.hit.id) ∘ (fun hit =>
      if tmdbIdOf hit ≠ .undef then (⟨hit, none⟩ : EnrichedHit)
      else (l.find? (fun e => e.hit.id == hit.id)).getD ⟨hit, none⟩))
      = fun h : SearchHit => h.id := by
    funext hit
    by_cases h : tmdbIdOf hit ≠ .undef
    · simp [h]
    · simp only [Function.comp_apply, if_neg h]
      exact combine_preserves_id l hit
  rw [hfun]

/-- C1: for every input hit list, enrichSearchResultsWithTMDB returns a list
with the same length and the same id sequence in the same order, for every
lookup oracle. (The merge step recovers the order by mapping over the
original list, and Promise.all preserves the order of the mapped list
regardless of which individual lookups complete first, so completion order
never enters the model; the merge is by-id with a fallback to the original
hit, which carries the original id in every case.) -/
theorem enrich_preserves_length_and_ids (lookup : Lookup)
    (hits : List SearchHit) :
    (enrichSearchResultsWithTMDB lookup hits).1.length = hits.length ∧
    (enrichSearchResultsWithTMDB lookup hits).1.map (fun e => e.hit.id)
      = hits.map (fun h => h.id) :=
  ⟨enrich_length_eq lookup hits, enrich_ids_eq lookup hits⟩

/-- Oracle that always resolves with null (no result found). -/
def nullLookup : Lookup := fun _ _ _ => .ok none

/-- A hit with tmdb_id undefined but no usable title anywhere: fields.title
and fields.title_raw are absent and hit.title is the empty string. -/
def hitNoTitle : SearchHit := { id := 0, title := "", fields := some {} }

/-- C2 counterexample: this hit has fields.tmdb_id undefined, yet the code
performs zero searchTMDB calls for it, because the title computed from
fields.title, fields.title_raw and hit.title is falsy and the function
returns before the lookup (enrich-tmdb.ts line 37). The claim asserts such
a hit triggers exactly one lookup. -/
theorem enrich_undef_hit_zero_lookups_cex :
    tmdbIdOf hitNoTitle = .undef ∧
    (enrichSearchHitWithTMDB nullLookup hitNoTitle).2 = 0 := by decide

/-- Helper: summing a per-hit quantity over the filtered sublist equals the
sum over the whole list when the quantity vanishes off the filter. -/
theorem sum_over_filter_undef (f : SearchHit → Nat)
    (hzero : ∀ h, tmdbIdOf h ≠ .undef → f h = 0) (hits : List SearchHit) :
    ((hits.filter (fun h => tmdbIdOf h = .undef)).map f).sum
      = (hits.map f).sum := by
  induction hits with
  | nil => rfl
  | cons h t ih =>
    by_cases hp : tmdbIdOf h = .undef
    · simp [List.filter_cons, hp, ih]
    · simp [List.filter_cons, hp, ih, hzero h hp]

/-- C2 amended: a hit whose fields.tmdb_id is present (null or a number) is
returned unchanged with zero lookup calls; a hit whose fields.tmdb_id is
undefined triggers exactly one lookup when it has a truthy title, and is
returned unchanged with zero lookups when it has none; the batch call total
is the sum of the per-hit call counts. -/
theorem enrich_lookup_decision_rule (lookup : Lookup) :
    (∀ hit : SearchHit, tmdbIdOf hit ≠ .undef →
      enrichSearchHitWithTMDB lookup hit = (⟨hit, none⟩, 0)) ∧
    (∀ hit : SearchHit, tmdbIdOf hit = .undef → effTitle hit = none →
      enrichSearchHitWithTMDB lookup hit = (⟨hit, none⟩, 0)) ∧
    (∀ hit : SearchHit, tmdbIdOf hit = .undef → effTitle hit ≠ none →
      (enrichSearchHitWithTMDB lookup hit).2 = 1) ∧
    (∀ hits : List SearchHit, (enrichSearchResultsWithTMDB lookup hits).2
      = (hits.map (fun h => (enrichSearchHitWithTMDB lookup h).2)).sum) := by
  refine ⟨?_, ?_, ?_, ?_⟩
  · intro hit h
    simp [enrichSearchHitWithTMDB, h]
  · intro hit h ht
    simp [enrichSearchHitWithTMDB, h, ht]
  · intro hit h ht
    cases hcase : effTitle hit with
    | none => exact absurd hcase ht
    | some t =>
      simp only [enrichSearchHitWithTMDB, h]
      simp [hcase]
      cases lookup t (yearOf hit) (mediaTypeOf hit) with
      | ok r => rfl
      | thrown => rfl
  · intro hits
    rw [enrichResults_snd]
    refine sum_over_filter_undef _ ?_ hits
    intro h hne
    simp [enrichSearchHitWithTMDB, hne]

/-- Witness for the amended C2: a hit carrying the null sentinel passes
through unchanged with zero lookups. -/
def hitNullSentinel : SearchHit :=
  { id := 1, title := "X", fields := some { tmdb_id := .nullv } }

theorem enrich_lookup_decision_rule_witness :
    enrichSearchHitWithTMDB nullLookup hitNullSentinel
      = (⟨hitNullSentinel, none⟩, 0) :=
  (enrich_lookup_decision_rule nullLookup).1 hitNullSentinel (by decide)

/-- The lookup the hit would perform resolves with an actual record. -/
def lookupGaveData (lookup : Lookup) (hit : SearchHit) : Prop :=
  ∃ t r, effTitle hit = some t ∧
    lookup t (yearOf hit) (mediaTypeOf hit) = .ok (some r)

/-- A hit whose own lookup fails (or finds nothing) is enriched to itself
with no attachment. -/
theorem enrichHit_of_failure (lookup : Lookup) (hit : SearchHit)
    (hu : tmdbIdOf hit = .undef) (hng : ¬ lookupGaveData lookup hit) :
    (enrichSearchHitWithTMDB lookup hit).1 = ⟨hit, none⟩ := by
  unfold enrichSearchHitWithTMDB
  simp only [hu, ne_eq, not_true_eq_false, if_false, not_false_eq_true,
    if_neg]
  cases hcase : effTitle hit with
  | none => rfl
  | some t =>
    cases hl : lookup t (yearOf hit) (mediaTypeOf hit) with
    | thrown => simp [hl]
    | ok r =>
      cases r with
      | none => simp [hl]
      | some d => exact absurd ⟨t, d, hcase, hl⟩ hng

/-- In a list whose ids are pairwise distinct, searching by the id of a
member finds exactly that member. -/
theorem find?_id_of_nodup (l : List SearchHit) (a : SearchHit)
    (hnd : (l.map (fun h => h.id)).Nodup) (ha : a ∈ l) :
    l.find? (fun h => h.id == a.id) = some a := by
  induction l with
  | nil => cases ha
  | cons h t ih =>
    rw [List.map_cons, List.nodup_cons] at hnd
    rcases List.mem_cons.mp ha with rfl | hat
    · exact List.find?_cons_of_pos _ (by simp)
    · have hne : h.id ≠ a.id := fun he => hnd.1 (by
        rw [he]; exact List.mem_map_of_mem _ hat)
      rw [List.find?_cons_of_neg _ (by simp [hne]), ih hnd.2 hat]

/-- With pairwise distinct ids, the batch merge puts each undefined-id hit
at its own position with exactly its own single-hit enrichment. -/
theorem enrich_slot_eq_single (lookup : Lookup) (hits : List SearchHit)
    (hnd : (hits.map (fun h => h.id)).Nodup)
    (i : Nat) (hi : i < hits.length) (hu : tmdbIdOf hits[i] = .undef) :
    (enrichSearchResultsWithTMDB lookup hits).1[i]?
      = some (enrichSearchHitWithTMDB lookup hits[i]).1 := by
  rw [enrichResults_fst, List.getElem?_map, List.getElem?_eq_getElem hi,
    Option.map_some']
  rw [if_neg (by simp [hu])]
  rw [List.find?_map]
  have hpred : ((fun e : EnrichedHit => e.hit.id == hits[i].id) ∘
      (fun h => (enrichSearchHitWithTMDB lookup h).1))
      = fun h : SearchHit => h.id == hits[i].id := by
    funext h
    simp [enrichHit_fst_hit]
  rw [hpred]
  have hmem : hits[i] ∈ hits.filter (fun h => tmdbIdOf h = .undef) :=
    List.mem_filter.mpr ⟨List.getElem_mem hi, by simp [hu]⟩
  have hndf : ((hits.filter (fun h => tmdbIdOf h = .undef)).map
      (fun h => h.id)).Nodup :=
    hnd.sublist ((List.filter_sublist hits).map _)
  rw [find?_id_of_nodup _ _ hndf hmem]
  rfl

/-- Oracle under which every lookup throws. -/
def thrownLookup : Lookup := fun _ _ _ => .thrown

/-- Oracle for the C9 counterexample: the title A resolves with a record,
every other title throws. -/
def lookupAB : Lookup :=
  fun t _ _ => if t = "A" then .ok (some { id := 99 }) else .thrown

def hitA : SearchHit := { id := 5, title := "A" }

def hitB : SearchHit := { id := 5, title := "B" }

/-- C9 counterexample: two hits share id 5; the lookup for hitB throws, yet
the output slot of hitB is not hitB unchanged, but hitA together with hitA
lookup data, because the by-id merge finds the first enriched hit with that
id. So a failed lookup does not always leave the affected hit unchanged in
the output. -/
theorem enrich_failure_isolation_cex :
    lookupAB "B" none "movie" = .thrown ∧
    (enrichSearchResultsWithTMDB lookupAB [hitA, hitB]).1[1]?
      = some ⟨hitA, some { id := 99 }⟩ ∧
    (⟨hitA, some { id := 99 }⟩ : EnrichedHit) ≠ ⟨hitB, none⟩ := by decide

/-- C9 amended: provided the hit ids are pairwise distinct, enrichment of
the whole list always succeeds with one output per input, and every hit
whose own lookup fails or finds nothing appears in the output unchanged
(unenriched) at its original position. -/
theorem enrich_isolates_failures (lookup : Lookup) (hits : List SearchHit)
    (hnd : (hits.map (fun h => h.id)).Nodup) :
    (enrichSearchResultsWithTMDB lookup hits).1.length = hits.length ∧
    ∀ i, (hi : i < hits.length) → tmdbIdOf hits[i] = .undef →
      ¬ lookupGaveData lookup hits[i] →
      (enrichSearchResultsWithTMDB lookup hits).1[i]?
        = some ⟨hits[i], none⟩ := by
  refine ⟨enrich_length_eq lookup hits, ?_⟩
  intro i hi hu hng
  rw [enrich_slot_eq_single lookup hits hnd i hi hu,
    enrichHit_of_failure lookup hits[i] hu hng]

theorem enrich_isolates_failures_witness :
    (enrichSearchResultsWithTMDB thrownLookup [hitB]).1[0]?
      = some ⟨hitB, none⟩ := by
  refine (enrich_isolates_failures thrownLookup [hitB] (by decide)).2 0
    (by decide) (by decide) ?_
  rintro ⟨t, r, -, hl⟩
  exact LookupOutcome.noConfusion hl

/-! ## Metadata lookup retry logic

Two implementations of fetchFromTMDB live in the repository: the refactored
poster route (unnamed part_010) and src/app/api/tmdb/poster/route.ts. Both
are modelled; they differ in which failures they retry. -/

/-- Outcome of one axios.get attempt against TMDB: a response carrying the
results array, or a rejection described by whether it is an axios error,
its HTTP response status (if any) and its error code (if any). -/
inductive TMDBOutcome where
  | ok (results : List TMDBSearchResult)
  | fail (isAxios : Bool) (status : Option Nat) (code : Option String)
deriving DecidableEq, Repr

/-- The error value fetchFromTMDB rethrows. -/
structure FetchErr where
  isAxios : Bool
  status : Option Nat
  code : Option String
deriving DecidableEq, Repr

/-- Trace of one fetchFromTMDB run: the final result, the number of axios
attempts performed, and the backoff delays awaited, in order. -/
structure FetchTrace where
  result : Except FetchErr (Option TMDBSearchResult)
  attempts : Nat
  delays : List Nat
deriving Repr

/-- status and (status === 401 or 403 or 404 or 429): client errors that are
never retried (part_010, line 65). -/
def tmdbIsClientError (status : Option Nat) : Bool :=
  match status with
  | some st => st == 401 || st == 403 || st == 404 || st == 429
  | none => false

/-- isAxiosError and one of the four network codes (part_010, line 72; the
source tests errorCode or the empty string against the list). -/
def tmdbIsNetworkError (isAxios : Bool) (errorCode : Option String) : Bool :=
  isAxios && (["ECONNREFUSED", "ETIMEDOUT", "ENOTFOUND",
    "ECONNRESET"].contains (errorCode.getD ""))

/-- status and status >= 500 (part_010, line 73). -/
def tmdbIsServerError (status : Option Nat) : Bool :=
  match status with
  | some st => 500 ≤ st
  | none => false

/-- fetchFromTMDB from the refactored poster route (unnamed part_010, lines
35-88). attempt n is the outcome of the axios call made with retryCount = n.
On a failure: status is the axios response status (null for non-axios
errors), errorCode is the axios code (UNKNOWN for non-axios errors); the
four client-error statuses are terminal; network-class codes and 5xx
statuses are retried while retryCount < maxRetries, awaiting
retryDelay * 2 ^ retryCount before each retry; anything else is rethrown. -/
def fetchFromTMDB (maxRetries retryDelay : Nat)
    (attempt : Nat → TMDBOutcome) (retryCount : Nat) : FetchTrace :=
  match attempt retryCount with
  | .ok results => ⟨.ok results.head?, 1, []⟩
  | .fail isAxios statusField codeField =>
    let status : Option Nat := if isAxios then statusField else none
    let errorCode : Option String :=
      if isAxios then codeField else some "UNKNOWN"
    if tmdbIsClientError status then
      ⟨.error ⟨isAxios, statusField, codeField⟩, 1, []⟩
    else if h : (tmdbIsNetworkError isAxios errorCode
        || tmdbIsServerError status) = true ∧ retryCount < maxRetries then
      let rest := fetchFromTMDB maxRetries retryDelay attempt (retryCount + 1)
      ⟨rest.result, rest.attempts + 1,
        retryDelay * 2 ^ retryCount :: rest.delays⟩
    else ⟨.error ⟨isAxios, statusField, codeField⟩, 1, []⟩
termination_by maxRetries - retryCount
decreasing_by omega

/-- MAX_RETRIES in src/app/api/tmdb/poster/route.ts, line 17. -/
def ROUTE_MAX_RETRIES : Nat := 3

/-- RETRY_DELAY_MS in src/app/api/tmdb/poster/route.ts, line 18. -/
def ROUTE_RETRY_DELAY_MS : Nat := 1000

/-- error.code === ECONNREFUSED or ETIMEDOUT or ENOTFOUND or ECONNRESET
(route.ts, lines 67-71). -/
def routeIsNetworkError (isAxios : Bool) (code : Option String) : Bool :=
  isAxios && (code == some "ECONNREFUSED" || code == some "ETIMEDOUT" ||
    code == some "ENOTFOUND" || code == some "ECONNRESET")

/-- fetchFromTMDB from src/app/api/tmdb/poster/route.ts (lines 40-91): this
variant retries only on the four network error codes; every other failure,
including an HTTP 5xx response, is rethrown after a single attempt. -/
def fetchFromTMDBRoute (attempt : Nat → TMDBOutcome) (retryCount : Nat) :
    FetchTrace :=
  match attempt retryCount with
  | .ok results => ⟨.ok results.head?, 1, []⟩
  | .fail isAxios statusField codeField =>
    if h : routeIsNetworkError isAxios codeField = true ∧
        retryCount < ROUTE_MAX_RETRIES then
      let rest := fetchFromTMDBRoute attempt (retryCount + 1)
      ⟨rest.result, rest.attempts + 1,
        ROUTE_RETRY_DELAY_MS * 2 ^ retryCount :: rest.delays⟩
    else ⟨.error ⟨isAxios, statusField, codeField⟩, 1, []⟩
termination_by ROUTE_MAX_RETRIES - retryCount
decreasing_by omega

/-- A persistently failing retryable error exhausts the retry budget of the
part_010 fetchFromTMDB: from retryCount rc it performs maxRetries - rc + 1
attempts with the exponential backoff delays in between. -/
theorem fetch_retryable_exhausts (maxRetries retryDelay : Nat)
    (attempt : Nat → TMDBOutcome) (isAxios : Bool) (status : Option Nat)
    (code : Option String)
    (hatt : ∀ n, attempt n = .fail isAxios status code)
    (hnc : tmdbIsClientError (if isAxios then status else none) = false)
    (hr : (tmdbIsNetworkError isAxios
        (if isAxios then code else some "UNKNOWN")
      || tmdbIsServerError (if isAxios then status else none)) = true) :
    ∀ k rc, maxRetries - rc = k →
      (fetchFromTMDB maxRetries retryDelay attempt rc).attempts = k + 1 ∧
      (fetchFromTMDB maxRetries retryDelay attempt rc).delays
        = (List.range' rc k).map (fun j => retryDelay * 2 ^ j) := by
  intro k
  induction k with
  | zero =>
    intro rc hk
    have hge : ¬ rc < maxRetries := by omega
    unfold fetchFromTMDB
    rw [hatt rc]
    simp [hnc, hr, hge]
  | succ k ih =>
    intro rc hk
    have hlt : rc < maxRetries := by omega
    obtain ⟨iha, ihd⟩ := ih (rc + 1) (by omega)
    unfold fetchFromTMDB
    rw [hatt rc]
    simp only [hnc, Bool.false_eq_true, if_false]
    rw [dif_pos ⟨hr, hlt⟩]
    refine ⟨by simpa using iha, ?_⟩
    simp only [List.range'_succ, List.map_cons]
    rw [ihd]

/-- A persistently failing network-class error exhausts the retry budget of
the route.ts fetchFromTMDB. -/
theorem fetchRoute_network_exhausts (attempt : Nat → TMDBOutcome)
    (isAxios : Bool) (status : Option Nat) (code : Option String)
    (hatt : ∀ n, attempt n = .fail isAxios status code)
    (hr : routeIsNetworkError isAxios code = true) :
    ∀ k rc, ROUTE_MAX_RETRIES - rc = k →
      (fetchFromTMDBRoute attempt rc).attempts = k + 1 ∧
      (fetchFromTMDBRoute attempt rc).delays
        = (List.range' rc k).map (fun j => ROUTE_RETRY_DELAY_MS * 2 ^ j) := by
  intro k
  induction k with
  | zero =>
    intro rc hk
    have hge : ¬ rc < ROUTE_MAX_RETRIES := by omega
    unfold fetchFromTMDBRoute
    rw [hatt rc]
    simp [hge]
  | succ k ih =>
    intro rc hk
    have hlt : rc < ROUTE_MAX_RETRIES := by omega
    obtain ⟨iha, ihd⟩ := ih (rc + 1) (by omega)
    unfold fetchFromTMDBRoute
    rw [hatt rc]
    dsimp only
    rw [dif_pos ⟨hr, hlt⟩]
    refine ⟨by simpa using iha, ?_⟩
    simp only [List.range'_succ, List.map_cons]
    rw [ihd]

/-- A failure the part_010 fetchFromTMDB classifies as a client error is
terminal on the spot. -/
theorem fetch_client_error_terminal (maxRetries retryDelay : Nat)
    (attempt : Nat → TMDBOutcome) (rc : Nat) (st : Nat) (code : Option String)
    (hatt : attempt rc = .fail true (some st) code)
    (hst : st = 401 ∨ st = 403 ∨ st = 404 ∨ st = 429) :
    (fetchFromTMDB maxRetries retryDelay attempt rc).attempts = 1 ∧
    (fetchFromTMDB maxRetries retryDelay attempt rc).delays = [] := by
  have hc : tmdbIsClientError (some st) = true := by
    rcases hst with rfl | rfl | rfl | rfl <;> rfl
  unfold fetchFromTMDB
  rw [hatt]
  simp [hc]

/-- A failure the route.ts fetchFromTMDB does not classify as a network
error is terminal on the spot. -/
theorem fetchRoute_non_network_terminal (attempt : Nat → TMDBOutcome)
    (rc : Nat) (isAxios : Bool) (status : Option Nat) (code : Option String)
    (hatt : attempt rc = .fail isAxios status code)
    (hn : routeIsNetworkError isAxios code = false) :
    (fetchFromTMDBRoute attempt rc).attempts = 1 ∧
    (fetchFromTMDBRoute attempt rc).delays = [] := by
  unfold fetchFromTMDBRoute
  rw [hatt]
  dsimp only
  rw [dif_neg (by simp [hn])]
  exact ⟨rfl, rfl⟩

/-- Oracle under which every attempt fails as an axios error with HTTP
status 500 (the axios code for a bad response status). -/
def fail500Attempt : Nat → TMDBOutcome :=
  fun _ => .fail true (some 500) (some "ERR_BAD_RESPONSE")

/-- C3 counterexample: in the fetchFromTMDB of
src/app/api/tmdb/poster/route.ts, a lookup that fails with HTTP status 500
on every attempt performs exactly one attempt and awaits no backoff delay,
even though the retry budget (MAX_RETRIES = 3) is available: that variant
retries only the four network error codes, never 5xx statuses. The claim
asserts every 5xx failure is retried. -/
theorem route_5xx_not_retried_cex :
    (fetchFromTMDBRoute fail500Attempt 0).attempts = 1 ∧
    (fetchFromTMDBRoute fail500Attempt 0).delays = [] ∧
    0 < ROUTE_MAX_RETRIES := by
  have h := fetchRoute_non_network_terminal fail500Attempt 0 true (some 500)
    (some "ERR_BAD_RESPONSE") rfl (by decide)
  exact ⟨h.1, h.2, by decide⟩

/-- C3 amended: in the part_010 fetchFromTMDB, a failure with HTTP status
401, 403, 404 or 429 performs exactly one attempt with no retry, while a
persistent timeout or HTTP 5xx failure is retried with delays
retryDelay * 2 ^ attempt, performing maxRetries + 1 total attempts. In the
fetchFromTMDBRoute of src/app/api/tmdb/poster/route.ts, only the four
network error codes are retried (up to MAX_RETRIES + 1 = 4 total attempts
with delays 1000, 2000, 4000 ms); every other failure, HTTP 5xx included,
performs exactly one attempt. -/
theorem tmdb_retry_policy (maxRetries retryDelay : Nat)
    (attempt : Nat → TMDBOutcome) :
    (∀ st code, attempt 0 = .fail true (some st) code →
      st = 401 ∨ st = 403 ∨ st = 404 ∨ st = 429 →
      (fetchFromTMDB maxRetries retryDelay attempt 0).attempts = 1 ∧
      (fetchFromTMDB maxRetries retryDelay attempt 0).delays = []) ∧
    ((∀ n, attempt n = .fail true none (some "ETIMEDOUT")) →
      (fetchFromTMDB maxRetries retryDelay attempt 0).attempts
        = maxRetries + 1 ∧
      (fetchFromTMDB maxRetries retryDelay attempt 0).delays
        = (List.range maxRetries).map (fun j => retryDelay * 2 ^ j)) ∧
    (∀ st code, 500 ≤ st →
      (∀ n, attempt n = .fail true (some st) code) →
      (fetchFromTMDB maxRetries retryDelay attempt 0).attempts
        = maxRetries + 1) ∧
    (∀ isAxios status code, attempt 0 = .fail isAxios status code →
      routeIsNetworkError isAxios code = false →
      (fetchFromTMDBRoute attempt 0).attempts = 1) ∧
    (∀ isAxios status code,
      (∀ n, attempt n = .fail isAxios status code) →
      routeIsNetworkError isAxios code = true →
      (fetchFromTMDBRoute attempt 0).attempts = ROUTE_MAX_RETRIES + 1 ∧
      (fetchFromTMDBRoute attempt 0).delays = [1000, 2000, 4000]) := by
  refine ⟨?_, ?_, ?_, ?_, ?_⟩
  · intro st code hatt hst
    exact fetch_client_error_terminal maxRetries retryDelay attempt 0 st code
      hatt hst
  · intro hatt
    have h := fetch_retryable_exhausts maxRetries retryDelay attempt true
      none (some "ETIMEDOUT") hatt (by decide) (by decide) maxRetries 0
      (by omega)
    refine ⟨by simpa using h.1, ?_⟩
    rw [h.2, List.range_eq_range']
  · intro st code h500 hatt
    have hnc : tmdbIsClientError
        (if true = true then some st else none) = false := by
      simp [tmdbIsClientError]
      omega
    have hr : (tmdbIsNetworkError true
        (if true = true then code else some "UNKNOWN")
        || tmdbIsServerError (if true = true then some st else none))
        = true := by
      simp [tmdbIsServerError, h500]
    have h := fetch_retryable_exhausts maxRetries retryDelay attempt true
      (some st) code hatt hnc hr maxRetries 0 (by omega)
    simpa using h.1
  · intro isAxios status code hatt hn
    exact (fetchRoute_non_network_terminal attempt 0 isAxios status code
      hatt hn).1
  · intro isAxios status code hatt hr
    have h := fetchRoute_network_exhausts attempt isAxios status code hatt
      hr ROUTE_MAX_RETRIES 0 (by decide)
    refine ⟨h.1, ?_⟩
    rw [h.2]
    decide

/-- Oracle under which every attempt times out. -/
def timeoutAttempt : Nat → TMDBOutcome :=
  fun _ => .fail true none (some "ETIMEDOUT")

theorem tmdb_retry_policy_witness :
    (fetchFromTMDB 2 1000 timeoutAttempt 0).attempts = 3 ∧
    (fetchFromTMDB 2 1000 timeoutAttempt 0).delays = [1000, 2000] := by
  have h := (tmdb_retry_policy 2 1000 timeoutAttempt).2.1 (fun n => rfl)
  refine ⟨by simpa using h.1, ?_⟩
  rw [h.2]
  decide

/-! ## Incremental result session: the chat interface

State and transitions of the ChatInterface component (unnamed part_001).
The component is a single-threaded event loop; calling the synchronous
prefix of handleSearch twice in a row models two submissions while the
first request is still in flight (its continuation has not run yet). -/

/-- One chat message; movies is SearchHit[] | undefined (an empty array
present is different from the field being absent). isUser models the
type field (user versus assistant). -/
structure Message where
  mid : String
  isUser : Bool
  content : String
  movies : Option (List SearchHit) := none
deriving DecidableEq, Repr

/-- The component state the search flow reads and writes, plus netCalls, an
instrumentation counter of fetch calls issued to /api/search. activeSearch
models activeSearchRef.current. -/
structure ChatState where
  messages : List Message
  isLoading : Bool
  filters : List (String × String)
  currentQuery : String
  currentOffset : Nat
  hasMore : Bool
  isLoadingMore : Bool
  activeSearch : Option String
  netCalls : Nat
deriving DecidableEq, Repr

/-- The useState initializers of the component. -/
def ChatState.init : ChatState :=
  ⟨[], false, [], "", 0, true, false, none, 0⟩

/-- Stands for JSON.stringify(filters): a canonical serialization of the
filter record. Only its injectivity on identical records matters here. -/
def serializeFilters (filters : List (String × String)) : String :=
  String.intercalate "," (filters.map (fun p => p.1 ++ ":" ++ p.2))

/-- The duplicate-suppression key (part_001, line 90). -/
def searchKey (query : String) (offset : Nat)
    (filters : List (String × String)) : String :=
  query ++ "-" ++ toString offset ++ "-" ++ serializeFilters filters

/-- The synchronous prefix of handleSearch (part_001, lines 86-143): the
empty-query guard, the duplicate-suppression check, the per-mode state
updates, and issuing the fetch (counted in netCalls). timestamp stands for
Date.now(); the updateUrlParams router call is an external side effect
outside the model. A returned state with netCalls unchanged means the call
returned before reaching the network. -/
def handleSearchStart (query : String) (offset : Nat)
    (append replace : Bool) (timestamp : Nat) (s : ChatState) : ChatState :=
  if jsTrim query = "" then s
  else
    let key := searchKey query offset s.filters
    if !append && !replace && s.activeSearch == some key then s
    else
      let s1 :=
        if !append && !replace then
          { s with activeSearch := some key,
                   messages := [⟨toString timestamp, true, query, none⟩],
                   isLoading := true,
                   currentOffset := 0,
                   hasMore := true,
                   currentQuery := query }
        else if replace then
          { s with activeSearch := some key,
                   isLoading := true,
                   currentOffset := 0,
                   hasMore := true }
        else
          { s with isLoadingMore := true }
      { s1 with netCalls := s1.netCalls + 1 }

/-- The body the /api/search response json is read into; hits and total may
be absent. -/
structure SearchResponseData where
  hits : Option (List SearchHit) := none
  total : Option Nat := none
deriving DecidableEq, Repr

/-- setHasMore(data.hits and data.hits.length === 20): an absent hits array
is falsy; a present array (empty included) is truthy and its length is
compared to 20. -/
def jsHasMore (hits : Option (List SearchHit)) : Bool :=
  match hits with
  | none => false
  | some l => l.length == 20

/-- The assistant message content Found N movies matching the query. -/
def foundContent (total : Option Nat) (query : String) : String :=
  "Found " ++ toString (total.getD 0) ++ " movies matching \x22"
    ++ query ++ "\x22"

/-- The append-mode setMessages updater (part_001, lines 159-169): when the
last message exists and carries a movies array, concatenate the page onto
it; otherwise leave the messages unchanged. -/
def appendToLastMovies (hits : List SearchHit) (msgs : List Message) :
    List Message :=
  match msgs.getLast? with
  | some lastMessage =>
    match lastMessage.movies with
    | some ms =>
      msgs.dropLast ++ [{ lastMessage with movies := some (ms ++ hits) }]
    | none => msgs
  | none => msgs

/-- The replace-mode setMessages updater (part_001, lines 174-186). -/
def replaceLastMovies (query : String) (total : Option Nat)
    (hits : List SearchHit) (msgs : List Message) : List Message :=
  match msgs.getLast? with
  | some lastMessage =>
    if !lastMessage.isUser && lastMessage.movies.isSome then
      msgs.dropLast ++ [{ lastMessage with
        content := foundContent total query, movies := some hits }]
    else msgs
  | none => msgs

/-- The success continuation of handleSearch (part_001, lines 150-200)
together with the finally block (lines 218-225): response.ok held and
data.error was absent. -/
def handleSearchSuccess (query : String) (offset : Nat)
    (append replace : Bool) (data : SearchResponseData) (timestamp : Nat)
    (s : ChatState) : ChatState :=
  let s1 :=
    if append then
      { s with
        messages := appendToLastMovies (data.hits.getD []) s.messages,
        currentOffset := offset + 20,
        hasMore := jsHasMore data.hits }
    else if replace then
      { s with
        messages :=
          replaceLastMovies query data.total (data.hits.getD []) s.messages,
        currentOffset := 20,
        hasMore := jsHasMore data.hits }
    else
      { s with
        messages := s.messages ++
          [⟨toString (timestamp + 1), false, foundContent data.total query,
            some (data.hits.getD [])⟩],
        currentOffset := 20,
        hasMore := jsHasMore data.hits }
  { s1 with
    isLoading := false,
    isLoadingMore := false,
    activeSearch := if append then s1.activeSearch else none }

/-- The chat infinite scroll trigger: the effect guard (part_001, line 278)
plus the observer callback condition (line 282); invoking this function is
the isIntersecting event. When the guard passes it calls
handleSearch(currentQuery, currentOffset, true). -/
def chatLoadMore (timestamp : Nat) (s : ChatState) : ChatState :=
  if s.currentQuery != "" && s.hasMore && !s.isLoadingMore then
    handleSearchStart s.currentQuery s.currentOffset true false timestamp s
  else s

/-! ## Incremental result session: the movie-search component -/

/-- The MovieSearch component state the search flow touches, plus the
netCalls instrumentation counter. -/
structure MSState where
  selectedMovie : Option String
  searchResults : List SearchHit
  currentOffset : Nat
  hasMore : Bool
  isLoadingMore : Bool
  isLoadingSearch : Bool
  netCalls : Nat
deriving DecidableEq, Repr

/-- The useState initializers of MovieSearch. -/
def MSState.init : MSState := ⟨none, [], 0, false, false, false, 0⟩

/-- The synchronous prefix of performSearch (movie-search.tsx, lines
156-175): set the loading flag for the mode and issue the fetch. -/
def performSearchStart (append : Bool) (s : MSState) : MSState :=
  let s1 :=
    if append then { s with isLoadingMore := true }
    else { s with isLoadingSearch := true }
  { s1 with netCalls := s1.netCalls + 1 }

/-- The success continuation of performSearch (movie-search.tsx, lines
181-201) with its finally block. -/
def performSearchSuccess (offset : Nat) (append : Bool)
    (data : SearchResponseData) (s : MSState) : MSState :=
  let newMovies := data.hits.getD []
  let s1 :=
    if append then { s with searchResults := s.searchResults ++ newMovies }
    else { s with searchResults := newMovies }
  { s1 with
    hasMore := newMovies.length == 20,
    currentOffset := offset + 20,
    isLoadingSearch := false,
    isLoadingMore := false }

/-- JS truthiness of selectedMovie : string | null. -/
def optStrTruthy (o : Option String) : Bool :=
  match o with
  | none => false
  | some s => s != ""

/-- The movie-search infinite scroll trigger: effect guard (line 87) plus
observer callback condition (line 91); invoking it is the isIntersecting
event. -/
def msLoadMore (s : MSState) : MSState :=
  if optStrTruthy s.selectedMovie && s.hasMore && !s.isLoadingMore then
    performSearchStart true s
  else s

/-- C4: from any state that is not already in flight on the same signature,
submitting the same non-blank query with offset 0 and the same filters
twice in immediate succession (the first request still in flight, so its
finally block has not cleared the active key) issues exactly one network
search call: the first call fires and records the signature, the second
finds the identical signature active and is a complete no-op. -/
theorem duplicate_submit_one_call (q : String) (s : ChatState)
    (t1 t2 : Nat) (hq : ¬ jsTrim q = "")
    (hactive : s.activeSearch ≠ some (searchKey q 0 s.filters)) :
    (handleSearchStart q 0 false false t1 s).netCalls = s.netCalls + 1 ∧
    handleSearchStart q 0 false false t2
        (handleSearchStart q 0 false false t1 s)
      = handleSearchStart q 0 false false t1 s := by
  have hbeq : (s.activeSearch == some (searchKey q 0 s.filters)) = false := by
    simp [hactive]
  constructor
  · unfold handleSearchStart
    rw [if_neg hq]
    simp [hbeq]
  · conv in handleSearchStart q 0 false false t1 s =>
      unfold handleSearchStart
    rw [if_neg hq]
    simp only [hbeq, Bool.not_false, Bool.true_and, Bool.and_false,
      Bool.false_eq_true, if_false, if_true]
    unfold handleSearchStart
    rw [if_neg hq]
    simp
    rw [if_neg hq, if_neg hactive]

theorem duplicate_submit_one_call_witness :
    (handleSearchStart "matrix" 0 false false 1 ChatState.init).netCalls
      = ChatState.init.netCalls + 1 ∧
    handleSearchStart "matrix" 0 false false 2
        (handleSearchStart "matrix" 0 false false 1 ChatState.init)
      = handleSearchStart "matrix" 0 false false 1 ChatState.init :=
  duplicate_submit_one_call "matrix" ChatState.init 1 2 (by decide)
    (by decide)

/-- C5: after a successfully processed page carrying a hits array, in both
components, hasMore is true exactly when the page length equals the
requested page size 20, and the offset cursor equals the requested offset
plus the page size. (Non-append requests are always issued at offset 0 by
every call site; for them the code sets the cursor to the literal 20,
which equals offset + 20 under that convention.) -/
theorem page_success_postconditions (q : String) (offset : Nat)
    (append replace : Bool) (data : SearchResponseData) (t : Nat)
    (s : ChatState) (ms : MSState) (l : List SearchHit)
    (hhits : data.hits = some l)
    (hoff : append = true ∨ offset = 0) :
    ((handleSearchSuccess q offset append replace data t s).hasMore = true
      ↔ l.length = 20) ∧
    (handleSearchSuccess q offset append replace data t s).currentOffset
      = offset + 20 ∧
    ((performSearchSuccess offset append data ms).hasMore = true
      ↔ l.length = 20) ∧
    (performSearchSuccess offset append data ms).currentOffset
      = offset + 20 := by
  have hjs : jsHasMore data.hits = (l.length == 20) := by
    rw [hhits]; rfl
  cases append with
  | true =>
    cases replace with
    | true => simp [handleSearchSuccess, performSearchSuccess, hjs, hhits, jsHasMore]
    | false => simp [handleSearchSuccess, performSearchSuccess, hjs, hhits, jsHasMore]
  | false =>
    have h0 : offset = 0 := by
      rcases hoff with h | h
      · exact absurd h (by simp)
      · exact h
    subst h0
    cases replace with
    | true => simp [handleSearchSuccess, performSearchSuccess, hjs, hhits, jsHasMore]
    | false => simp [handleSearchSuccess, performSearchSuccess, hjs, hhits, jsHasMore]

theorem page_success_postconditions_witness :
    ((handleSearchSuccess "m" 0 false false ⟨some [], none⟩ 0
        ChatState.init).hasMore = true
      ↔ ([] : List SearchHit).length = 20) ∧
    (handleSearchSuccess "m" 0 false false ⟨some [], none⟩ 0
        ChatState.init).currentOffset = 0 + 20 ∧
    ((performSearchSuccess 0 false ⟨some [], none⟩ MSState.init).hasMore
        = true ↔ ([] : List SearchHit).length = 20) ∧
    (performSearchSuccess 0 false ⟨some [], none⟩ MSState.init).currentOffset
      = 0 + 20 :=
  page_success_postconditions "m" 0 false false ⟨some [], none⟩ 0
    ChatState.init MSState.init [] rfl (Or.inr rfl)

/-- Any single run of the synchronous prefix of handleSearch issues at most
one network call. -/
theorem handleSearchStart_netCalls_le (q : String) (offset : Nat)
    (append replace : Bool) (t : Nat) (s : ChatState) :
    (handleSearchStart q offset append replace t s).netCalls
      ≤ s.netCalls + 1 := by
  unfold handleSearchStart
  by_cases hq : jsTrim q = ""
  · simp [hq]
  · rw [if_neg hq]
    by_cases hdup : (!append && !replace
        && s.activeSearch == some (searchKey q offset s.filters)) = true
    · simp [hdup]
    · simp only [hdup, if_false, Bool.false_eq_true]
      cases append <;> cases replace <;> simp

/-- A load-more trigger that actually fires a request leaves the state with
isLoadingMore set (append mode of handleSearch), so a second trigger before
completion is blocked. -/
theorem chatLoadMore_effects (t : Nat) (s : ChatState) :
    chatLoadMore t s = s ∨
    ((chatLoadMore t s).isLoadingMore = true ∧
      (chatLoadMore t s).currentQuery = s.currentQuery ∧
      (chatLoadMore t s).hasMore = s.hasMore ∧
      (chatLoadMore t s).netCalls = s.netCalls + 1) := by
  unfold chatLoadMore
  by_cases hg : (s.currentQuery != "" && s.hasMore && !s.isLoadingMore)
      = true
  · rw [if_pos hg]
    unfold handleSearchStart
    by_cases hq : jsTrim s.currentQuery = ""
    · left; simp [hq]
    · right
      rw [if_neg hq]
      simp
  · left
    rw [if_neg hg]

theorem msLoadMore_effects (s : MSState) :
    msLoadMore s = s ∨
    ((msLoadMore s).isLoadingMore = true ∧
      (msLoadMore s).selectedMovie = s.selectedMovie ∧
      (msLoadMore s).hasMore = s.hasMore ∧
      (msLoadMore s).netCalls = s.netCalls + 1) := by
  unfold msLoadMore
  by_cases hg : (optStrTruthy s.selectedMovie && s.hasMore
      && !s.isLoadingMore) = true
  · right
    rw [if_pos hg]
    simp [performSearchStart]
  · left
    rw [if_neg hg]

/-- A trigger arriving while a load is in flight is a no-op. -/
theorem chatLoadMore_blocked (t : Nat) (s : ChatState)
    (h : s.isLoadingMore = true) : chatLoadMore t s = s := by
  unfold chatLoadMore
  simp [h]

theorem msLoadMore_blocked (s : MSState)
    (h : s.isLoadingMore = true) : msLoadMore s = s := by
  unfold msLoadMore
  simp [h]

/-- C7: in both components the load-more trigger issues no network call
whenever hasMore is false or a load-more request is already in flight, and
two consecutive triggers with no completion in between issue at most one
network call in total: a trigger that fires sets the in-flight flag, which
blocks the next trigger, so two load-more requests are never in flight at
once. -/
theorem loadMore_serialized (s : ChatState) (ms : MSState) (t1 t2 : Nat) :
    (s.hasMore = false ∨ s.isLoadingMore = true → chatLoadMore t1 s = s) ∧
    (chatLoadMore t2 (chatLoadMore t1 s)).netCalls ≤ s.netCalls + 1 ∧
    (ms.hasMore = false ∨ ms.isLoadingMore = true → msLoadMore ms = ms) ∧
    (msLoadMore (msLoadMore ms)).netCalls ≤ ms.netCalls + 1 := by
  refine ⟨?_, ?_, ?_, ?_⟩
  · intro h
    unfold chatLoadMore
    rcases h with h | h <;> simp [h]
  · rcases chatLoadMore_effects t1 s with h1 | ⟨hl, -, -, hn⟩
    · rw [h1]
      rcases chatLoadMore_effects t2 s with h2 | ⟨-, -, -, hn2⟩
      · rw [h2]
        exact Nat.le_succ _
      · omega
    · rw [chatLoadMore_blocked t2 _ hl, hn]
  · intro h
    unfold msLoadMore
    rcases h with h | h <;> simp [h]
  · rcases msLoadMore_effects ms with h1 | ⟨hl, -, -, hn⟩
    · rw [h1]
      rcases msLoadMore_effects ms with h2 | ⟨-, -, -, hn2⟩
      · rw [h2]
        exact Nat.le_succ _
      · omega
    · rw [msLoadMore_blocked _ hl, hn]

theorem loadMore_serialized_witness :
    chatLoadMore 0 { ChatState.init with hasMore := false }
      = { ChatState.init with hasMore := false } ∧
    msLoadMore MSState.init = MSState.init :=
  ⟨(loadMore_serialized { ChatState.init with hasMore := false }
      MSState.init 0 0).1 (Or.inl rfl),
   (loadMore_serialized { ChatState.init with hasMore := false }
      MSState.init 0 0).2.2.1 (Or.inl rfl)⟩

/-- A state whose single assistant message already accumulated hitA. -/
def dupMsgState : ChatState :=
  { ChatState.init with messages := [⟨"1", false, "found", some [hitA]⟩] }

/-- A load-more page returning hitA again. -/
def dupPage : SearchResponseData := { hits := some [hitA] }

/-- C8 counterexample: the append branches of both components concatenate
the incoming page onto the accumulated list with no deduplication, so a
page that repeats an already-accumulated id (here the backend returns the
hit with id 5 on two pages) yields an accumulated list with a duplicate
id. -/
theorem accumulated_dup_ids_cex :
    ((handleSearchSuccess "q" 20 true false dupPage 0
        dupMsgState).messages.getLast?).map (fun m => m.movies)
      = some (some [hitA, hitA]) ∧
    (performSearchSuccess 20 true dupPage
        { MSState.init with searchResults := [hitA] }).searchResults
      = [hitA, hitA] ∧
    ¬ (([hitA, hitA]).map (fun h => h.id)).Nodup := by decide

def hitC : SearchHit := { id := 7, title := "C" }

/-- C8 amended: within one session the accumulated list after an appended
load-more page is exactly the previous accumulation concatenated with the
page, in both components; it is free of duplicate ids provided the previous
accumulation and the page each have distinct ids and share none (the
components themselves perform no deduplication, so distinctness rests on
the backend pages being disjoint). -/
theorem accumulated_hits_nodup_append (s : ChatState) (ms : MSState)
    (q : String) (offset : Nat) (data : SearchResponseData) (t : Nat)
    (lastMsg : Message) (acc l : List SearchHit)
    (hlast : s.messages.getLast? = some lastMsg)
    (hmov : lastMsg.movies = some acc)
    (hms : ms.searchResults = acc)
    (hdata : data.hits = some l)
    (hnd1 : (acc.map (fun h => h.id)).Nodup)
    (hnd2 : (l.map (fun h => h.id)).Nodup)
    (hdisj : ∀ a ∈ acc, ∀ b ∈ l, a.id ≠ b.id) :
    ((handleSearchSuccess q offset true false data t s).messages.getLast?
      = some { lastMsg with movies := some (acc ++ l) }) ∧
    (performSearchSuccess offset true data ms).searchResults = acc ++ l ∧
    ((acc ++ l).map (fun h => h.id)).Nodup := by
  refine ⟨?_, ?_, ?_⟩
  · simp only [handleSearchSuccess, if_true]
    have hmsgs : appendToLastMovies (data.hits.getD []) s.messages
        = s.messages.dropLast
          ++ [{ lastMsg with movies := some (acc ++ l) }] := by
      unfold appendToLastMovies
      rw [hlast]
      dsimp only
      rw [hmov]
      dsimp only
      rw [hdata]
      rfl
    simp only [hmsgs]
    exact List.getLast?_concat _
  · simp [performSearchSuccess, hdata, hms]
  · rw [List.map_append, List.nodup_append]
    refine ⟨hnd1, hnd2, ?_⟩
    intro x hx hy
    obtain ⟨a, ha, rfl⟩ := List.mem_map.mp hx
    obtain ⟨b, hb, hab⟩ := List.mem_map.mp hy
    exact hdisj a ha b hb hab.symm

theorem accumulated_hits_nodup_append_witness :
    ((handleSearchSuccess "q" 20 true false ⟨some [hitC], none⟩ 0
        dupMsgState).messages.getLast?
      = some ⟨"1", false, "found", some [hitA, hitC]⟩) ∧
    (performSearchSuccess 20 true ⟨some [hitC], none⟩
        { MSState.init with searchResults := [hitA] }).searchResults
      = [hitA, hitC] ∧
    (([hitA, hitC] : List SearchHit).map (fun h => h.id)).Nodup :=
  accumulated_hits_nodup_append dupMsgState
    { MSState.init with searchResults := [hitA] } "q" 20
    ⟨some [hitC], none⟩ 0 ⟨"1", false, "found", some [hitA]⟩ [hitA] [hitC]
    rfl rfl rfl rfl (by decide) (by decide) (by decide)

/-! ## TMDB result cache (db/queries.ts, unnamed part_019)

The drizzle-backed table is modelled as a list of rows in insertion order;
a select with limit 1 and no ORDER BY is modelled as the first matching
row in that order. The db-unconfigured and thrown-error paths of both
functions degrade to miss / no write and stay outside the model. -/

/-- One row of the tmdb_cache table (db/schema.ts); updatedAt is the epoch
timestamp in milliseconds. -/
structure CacheRow where
  id : Int
  searchQuery : String
  searchYear : Option Int := none
  title : Option String := none
  name : Option String := none
  posterPath : Option String := none
  backdropPath : Option String := none
  mediaType : Option String := none
  releaseDate : Option String := none
  firstAirDate : Option String := none
  voteAverage : Option Int := none
  voteCount : Option Int := none
  popularity : Option Int := none
  overview : Option String := none
  originalLanguage : Option String := none
  adult : Option Bool := none
  updatedAt : Nat
deriving DecidableEq, Repr

/-- normalizeQuery (queries.ts, line 13): query.toLowerCase().trim(). -/
def normalizeQuery (query : String) : String :=
  jsTrim (jsToLower query)

/-- isCacheValid (queries.ts, line 20): age strictly below the TTL of
TMDB_CACHE_DAYS days in milliseconds. A future updatedAt has negative age
in JS and is valid; truncated Nat subtraction gives age 0, valid too. -/
def isCacheValid (cacheDays : Nat) (now : Nat) (updatedAt : Nat) : Bool :=
  now - updatedAt < cacheDays * 24 * 60 * 60 * 1000

/-- JS truthiness of the year argument: undefined and 0 are falsy. -/
def yearTruthy (year : Option Int) : Bool :=
  match year with
  | none => false
  | some y => y != 0

/-- The drizzle where-condition of getCachedTMDBResult (lines 36-41): with
a truthy year both the normalized query and the year column must match,
otherwise only the query. -/
def rowMatches (nq : String) (year : Option Int) (r : CacheRow) : Bool :=
  if yearTruthy year then r.searchQuery == nq && r.searchYear == year
  else r.searchQuery == nq

/-- The value-or-undefined coercion used when reading a row back (lines
56-69): a falsy stored value (empty string) comes back as undefined. -/
def orUndefStr (o : Option String) : Option String :=
  match o with
  | none => none
  | some s => if s = "" then none else some s

/-- Same coercion for numeric columns: a stored 0 comes back undefined. -/
def orUndefInt (o : Option Int) : Option Int :=
  match o with
  | none => none
  | some n => if n = 0 then none else some n

/-- Same coercion for the boolean column: stored false comes back
undefined. -/
def orUndefBool (o : Option Bool) : Option Bool :=
  match o with
  | none => none
  | some b => if b then some true else none

/-- The TMDBSearchResult reconstructed from a cache row (lines 55-70). -/
def rowToResult (r : CacheRow) : TMDBSearchResult :=
  { id := r.id
    title := orUndefStr r.title
    name := orUndefStr r.name
    poster_path := orUndefStr r.posterPath
    backdrop_path := orUndefStr r.backdropPath
    media_type := orUndefStr r.mediaType
    release_date := orUndefStr r.releaseDate
    first_air_date := orUndefStr r.firstAirDate
    vote_average := orUndefInt r.voteAverage
    vote_count := orUndefInt r.voteCount
    popularity := orUndefInt r.popularity
    overview := orUndefStr r.overview
    original_language := orUndefStr r.originalLanguage
    adult := orUndefBool r.adult }

/-- getCachedTMDBResult (queries.ts, lines 29-83): normalize the query,
take the first row matching the conditions, return its record when its age
is below the TTL, otherwise null. -/
def getCachedTMDBResult (cacheDays : Nat) (query : String)
    (year : Option Int) (now : Nat) (db : List CacheRow) :
    Option TMDBSearchResult :=
  let normalizedQuery := normalizeQuery query
  match db.find? (rowMatches normalizedQuery year) with
  | some cached =>
    if isCacheValid cacheDays now cached.updatedAt then
      some (rowToResult cached)
    else none
  | none => none

/-- The row written by the insert branch of cacheTMDBResult (lines
133-150): searchYear stores year or null under JS truthiness (so year 0
becomes null); updatedAt takes the defaultNow() of the schema. -/
def resultToRow (nq : String) (year : Option Int) (m : TMDBSearchResult)
    (now : Nat) : CacheRow :=
  { id := m.id
    searchQuery := nq
    searchYear := if yearTruthy year then year else none
    title := m.title
    name := m.name
    posterPath := m.poster_path
    backdropPath := m.backdrop_path
    mediaType := m.media_type
    releaseDate := m.release_date
    firstAirDate := m.first_air_date
    voteAverage := m.vote_average
    voteCount := m.vote_count
    popularity := m.popularity
    overview := m.overview
    originalLanguage := m.original_language
    adult := m.adult
    updatedAt := now }

/-- The update branch of cacheTMDBResult (lines 108-128): drizzle set
skips fields whose value is undefined, so an absent field in the result
keeps the stored column (null and undefined are both none here, and
absent-keeps is used); searchQuery, searchYear and updatedAt are always
written. -/
def updateRow (nq : String) (year : Option Int) (m : TMDBSearchResult)
    (now : Nat) (r : CacheRow) : CacheRow :=
  { r with
    searchQuery := nq
    searchYear := if yearTruthy year then year else none
    title := m.title.or r.title
    name := m.name.or r.name
    posterPath := m.poster_path.or r.posterPath
    backdropPath := m.backdrop_path.or r.backdropPath
    mediaType := m.media_type.or r.mediaType
    releaseDate := m.release_date.or r.releaseDate
    firstAirDate := m.first_air_date.or r.firstAirDate
    voteAverage := m.vote_average.or r.voteAverage
    voteCount := m.vote_count.or r.voteCount
    popularity := m.popularity.or r.popularity
    overview := m.overview.or r.overview
    originalLanguage := m.original_language.or r.originalLanguage
    adult := m.adult.or r.adult
    updatedAt := now }

/-- cacheTMDBResult (queries.ts, lines 88-157): no write for a null
result; otherwise upsert keyed on the result id — update the existing row
with that id when present, else insert a new row. -/
def cacheTMDBResult (query : String) (year : Option Int)
    (result : Option TMDBSearchResult) (now : Nat) (db : List CacheRow) :
    List CacheRow :=
  match result with
  | none => db
  | some m =>
    let normalizedQuery := normalizeQuery query
    if db.any (fun r => r.id == m.id) then
      db.map (fun r => if r.id == m.id
        then updateRow normalizedQuery year m now r else r)
    else db ++ [resultToRow normalizedQuery year m now]

/-- A record whose optional fields all survive the value-or-undefined read
coercion: each is absent or truthy (non-empty string, non-zero number,
true). -/
def cleanResult (m : TMDBSearchResult) : Prop :=
  orUndefStr m.title = m.title ∧
  orUndefStr m.name = m.name ∧
  orUndefStr m.poster_path = m.poster_path ∧
  orUndefStr m.backdrop_path = m.backdrop_path ∧
  orUndefStr m.media_type = m.media_type ∧
  orUndefStr m.release_date = m.release_date ∧
  orUndefStr m.first_air_date = m.first_air_date ∧
  orUndefInt m.vote_average = m.vote_average ∧
  orUndefInt m.vote_count = m.vote_count ∧
  orUndefInt m.popularity = m.popularity ∧
  orUndefStr m.overview = m.overview ∧
  orUndefStr m.original_language = m.original_language ∧
  orUndefBool m.adult = m.adult

instance (m : TMDBSearchResult) : Decidable (cleanResult m) := by
  unfold cleanResult
  infer_instance

/-- Reading back a freshly inserted row reproduces the record, for clean
records. -/
theorem rowToResult_resultToRow (nq : String) (year : Option Int)
    (m : TMDBSearchResult) (now : Nat) (hm : cleanResult m) :
    rowToResult (resultToRow nq year m now) = m := by
  obtain ⟨h1, h2, h3, h4, h5, h6, h7, h8, h9, h10, h11, h12, h13⟩ := hm
  simp [rowToResult, resultToRow, h1, h2, h3, h4, h5, h6, h7, h8, h9, h10,
    h11, h12, h13]

/-- With no row already carrying the result id, cacheTMDBResult takes the
insert branch and appends the new row. -/
theorem cacheTMDBResult_insert (query : String) (year : Option Int)
    (m : TMDBSearchResult) (now : Nat) (db : List CacheRow)
    (hid : ∀ r ∈ db, r.id ≠ m.id) :
    cacheTMDBResult query year (some m) now db
      = db ++ [resultToRow (normalizeQuery query) year m now] := by
  unfold cacheTMDBResult
  dsimp only
  rw [if_neg]
  intro hany
  obtain ⟨r, hr, hrid⟩ := List.any_eq_true.mp hany
  exact hid r hr (by simpa using hrid)

/-- The freshly inserted row matches the lookup conditions built from the
same query and year. -/
theorem resultToRow_matches (nq : String) (year : Option Int)
    (m : TMDBSearchResult) (now : Nat) :
    rowMatches nq year (resultToRow nq year m now) = true := by
  unfold rowMatches resultToRow
  by_cases hy : yearTruthy year = true
  · simp [hy]
  · simp [hy]

/-- The record used in the C6 counterexample: its stored title is the empty
string. -/
def mEmptyTitle : TMDBSearchResult := { id := 1, title := some "" }

/-- C6 counterexample: put of a record whose title is the empty string,
followed by get under the same key at age 0 (well within the TTL), returns
a record whose title is undefined rather than the stored empty string: the
read path coerces every falsy column with value-or-undefined, so the
returned record differs from m on the shared title field. -/
theorem cache_roundtrip_cex :
    (getCachedTMDBResult 7 "a" none 0
        (cacheTMDBResult "a" none (some mEmptyTitle) 0 [])).map
        (fun r => r.title) = some none ∧
    mEmptyTitle.title = some "" := by decide

/-- C6 amended: for a record whose optional fields are all absent or truthy
(the value-or-undefined read coercion is the identity on them), and a cache
holding no row that matches the lookup key and none carrying the record id
(so the first match of the limit-1 select is the inserted row), put
followed by get under the same query and year returns the record exactly
while its age is below the TTL, and returns absent once its age is at
least the TTL. -/
theorem cache_roundtrip (cacheDays : Nat) (q : String) (year : Option Int)
    (m : TMDBSearchResult) (db : List CacheRow) (t now : Nat)
    (hkey : ∀ r ∈ db, rowMatches (normalizeQuery q) year r = false)
    (hid : ∀ r ∈ db, r.id ≠ m.id)
    (hm : cleanResult m) :
    (now - t < cacheDays * 24 * 60 * 60 * 1000 →
      getCachedTMDBResult cacheDays q year now
        (cacheTMDBResult q year (some m) t db) = some m) ∧
    (cacheDays * 24 * 60 * 60 * 1000 ≤ now - t →
      getCachedTMDBResult cacheDays q year now
        (cacheTMDBResult q year (some m) t db) = none) := by
  rw [cacheTMDBResult_insert q year m t db hid]
  have hfind : (db ++ [resultToRow (normalizeQuery q) year m t]).find?
      (rowMatches (normalizeQuery q) year)
      = some (resultToRow (normalizeQuery q) year m t) := by
    rw [List.find?_append]
    have hdb : db.find? (rowMatches (normalizeQuery q) year) = none :=
      List.find?_eq_none.mpr (fun r hr => by simp [hkey r hr])
    rw [hdb, Option.none_or]
    simp [List.find?_cons, resultToRow_matches]
  constructor
  · intro hfresh
    unfold getCachedTMDBResult
    dsimp only
    rw [hfind]
    dsimp only
    rw [if_pos]
    · rw [rowToResult_resultToRow _ _ _ _ hm]
    · unfold isCacheValid resultToRow
      simpa using hfresh
  · intro hstale
    unfold getCachedTMDBResult
    dsimp only
    rw [hfind]
    dsimp only
    rw [if_neg]
    unfold isCacheValid resultToRow
    simpa using hstale

/-- The record used in the witnesses. -/
def mMatrix : TMDBSearchResult := { id := 1, title := some "The Matrix" }

theorem cache_roundtrip_witness :
    getCachedTMDBResult 7 "Matrix" (some 1999) 3
        (cacheTMDBResult "Matrix" (some 1999) (some mMatrix) 0 [])
      = some mMatrix :=
  (cache_roundtrip 7 "Matrix" (some 1999) mMatrix [] 0 3
    (by simp) (by simp) (by decide)).1 (by decide)

/-- C10: a get without a year ignores the year column entirely: after a put
under a truthy year (the row therefore stores that year binding), a get by
any query with the same normalization and no year still returns the
record, because the year-less condition constrains only the normalized
query. -/
theorem cache_get_without_year (cacheDays : Nat) (qput qget : String)
    (yv : Int) (m : TMDBSearchResult) (db : List CacheRow) (t now : Nat)
    (hq : normalizeQuery qget = normalizeQuery qput)
    (hy : yv ≠ 0)
    (hkey : ∀ r ∈ db, (r.searchQuery == normalizeQuery qput) = false)
    (hid : ∀ r ∈ db, r.id ≠ m.id)
    (hm : cleanResult m)
    (hfresh : now - t < cacheDays * 24 * 60 * 60 * 1000) :
    getCachedTMDBResult cacheDays qget none now
        (cacheTMDBResult qput (some yv) (some m) t db) = some m ∧
    (resultToRow (normalizeQuery qput) (some yv) m t).searchYear
      = some yv := by
  constructor
  · rw [cacheTMDBResult_insert qput (some yv) m t db hid]
    unfold getCachedTMDBResult
    dsimp only
    rw [hq]
    have hfind : (db ++ [resultToRow (normalizeQuery qput) (some yv) m t]).find?
        (rowMatches (normalizeQuery qput) none)
        = some (resultToRow (normalizeQuery qput) (some yv) m t) := by
      rw [List.find?_append]
      have hdb : db.find? (rowMatches (normalizeQuery qput) none) = none :=
        List.find?_eq_none.mpr (fun r hr => by
          simp [rowMatches, yearTruthy, hkey r hr])
      rw [hdb, Option.none_or]
      simp [List.find?_cons, rowMatches, yearTruthy, resultToRow]
    rw [hfind]
    dsimp only
    rw [if_pos]
    · rw [rowToResult_resultToRow _ _ _ _ hm]
    · unfold isCacheValid resultToRow
      simpa using hfresh
  · simp [resultToRow, yearTruthy, hy]

theorem cache_get_without_year_witness :
    getCachedTMDBResult 7 "matrix" none 3
        (cacheTMDBResult "Matrix" (some 1999) (some mMatrix) 0 [])
      = some mMatrix ∧
    (resultToRow (normalizeQuery "Matrix") (some 1999) mMatrix 0).searchYear
      = some 1999 :=
  cache_get_without_year 7 "Matrix" "matrix" 1999 mMatrix [] 0 3
    (by decide) (by decide) (by simp) (by simp) (by decide) (by decide)

end WikiMovies
